import Mathlib

/-!
# Typed-buffer bridge between the host runtime abstraction and JavaScriptCore

A shallow embedding of `packages/expo-gl-cpp/cpp/TypedArrayJSC.cpp`.

* The engine (JavaScriptCore) is an explicit state `JSCRuntime`: an object store indexed by
  `JSObjectRef`, the context-invalid flag, and a trace of the effects the bridge performs
  (`JSValueProtect`, `JSValueUnprotect`, `new uint8_t[n]`).
* The C API calls used by the source are functions on that state, written after their
  documented contracts in `JSTypedArray.h`, `JSValueRef.h` and `JSObjectRef.h`.
* A native element of `ContentType<T>` is its object representation: `sizeof(ContentType<T>)`
  bytes. `memcpy` and the range constructor of `std::vector` move object representations, so
  no arithmetic on the element values is involved.
* A C++ exception or an aborting `assert` is a `Failure`; stateful operations return the
  outcome together with the runtime state after the call. Whether `assert` is compiled in
  is a parameter (`ndebug`) of the one function that uses it.
* Not represented: garbage collection, engine calls failing for lack of memory, detached
  buffers, and two objects sharing one backing store.
-/

set_option autoImplicit false

deriving instance DecidableEq for Except

namespace TypedArrayJSC

/-! ## Data model -/

/-- One byte of host or engine memory (`uint8_t`). -/
abbrev Byte := Fin 256

/-- The engine enumeration `JSTypedArrayType`. The eleven enumerators are the ones the source
names; `other` stands for any further value of the C enum (newer engines add kinds the
bridge does not know). Distinct enumerators are distinct values. -/
inductive JSTypedArrayType where
  | kJSTypedArrayTypeInt8Array
  | kJSTypedArrayTypeInt16Array
  | kJSTypedArrayTypeInt32Array
  | kJSTypedArrayTypeUint8Array
  | kJSTypedArrayTypeUint8ClampedArray
  | kJSTypedArrayTypeUint16Array
  | kJSTypedArrayTypeUint32Array
  | kJSTypedArrayTypeFloat32Array
  | kJSTypedArrayTypeFloat64Array
  | kJSTypedArrayTypeArrayBuffer
  | kJSTypedArrayTypeNone
  | other (raw : Nat)
  deriving DecidableEq, Repr

/-- Modelled from the spec: the enumeration `TypedArray::Type` is declared in
`TypedArrayJSI.h`, which is not among the sources. The eleven enumerators are the ones the
source uses in `TYPE_MAP` (lines 20-30) and in the `switch` of `typeFromJSValue`. -/
inductive TypedArray.Type_ where
  | Int8Array
  | Int16Array
  | Int32Array
  | Uint8Array
  | Uint8ClampedArray
  | Uint16Array
  | Uint32Array
  | Float32Array
  | Float64Array
  | ArrayBuffer
  | None
  deriving DecidableEq, Repr

open JSTypedArrayType

/-- Modelled from the spec: `sizeof(ContentType<T>)`, the element width selected by the tag
(`ContentType` is declared in `TypedArrayJSI.h`, not among the sources): signed and unsigned
8/16/32-bit integers, 32/64-bit floats, and single bytes for the generic byte buffer. The
source fixes four of them itself: `int32_t`, `uint32_t` and `float` in the explicit
instantiations (lines 197-203) and `uint8_t` for `Uint8Array` in `rawFromJSValue`. The
spec gives no width for `None`; one byte is used. -/
def sizeofContentType : TypedArray.Type_ → Nat
  | .Int8Array => 1
  | .Int16Array => 2
  | .Int32Array => 4
  | .Uint8Array => 1
  | .Uint8ClampedArray => 1
  | .Uint16Array => 2
  | .Uint32Array => 4
  | .Float32Array => 4
  | .Float64Array => 8
  | .ArrayBuffer => 1
  | .None => 1

/-- A native element of type `ContentType<T>`, given by its object representation. -/
structure ContentType (T : TypedArray.Type_) where
  bytes : List Byte
  size_eq : bytes.length = sizeofContentType T
  deriving DecidableEq, Repr

/-- The contiguous storage of a `std::vector<ContentType<T>>` (what `data.data()` points to). -/
def vectorStorage {T : TypedArray.Type_} : List (ContentType T) → List Byte
  | [] => []
  | e :: es => e.bytes ++ vectorStorage es

/-- The table `jscTypeMap` built by `TYPE_MAP` (lines 17-31). -/
def jscTypeMap : TypedArray.Type_ → JSTypedArrayType
  | .Int8Array => kJSTypedArrayTypeInt8Array
  | .Int16Array => kJSTypedArrayTypeInt16Array
  | .Int32Array => kJSTypedArrayTypeInt32Array
  | .Uint8Array => kJSTypedArrayTypeUint8Array
  | .Uint8ClampedArray => kJSTypedArrayTypeUint8ClampedArray
  | .Uint16Array => kJSTypedArrayTypeUint16Array
  | .Uint32Array => kJSTypedArrayTypeUint32Array
  | .Float32Array => kJSTypedArrayTypeFloat32Array
  | .Float64Array => kJSTypedArrayTypeFloat64Array
  | .ArrayBuffer => kJSTypedArrayTypeArrayBuffer
  | .None => kJSTypedArrayTypeNone

/-- The accessor `jscArrayType<T>()` (line 34). -/
def jscArrayType (T : TypedArray.Type_) : JSTypedArrayType := jscTypeMap T

/-! ## The engine -/

/-- A `JSObjectRef`: a reference into the object store of the engine. -/
abbrev JSObjectRef := Nat

/-- A `JSValueRef` as it occurs in this file: `NULL` or a reference to an object. -/
abbrev JSValueRef := Option JSObjectRef

/-- An engine object, as far as the typed-array API can tell objects apart. A typed array is
a view of `byteLength` bytes at `byteOffset` into its backing store `buffer`. Every object
carries its own backing store: two objects sharing one buffer are not represented. -/
inductive JSObject where
  | plain
  | arrayBuffer (bytes : List Byte)
  | typedArray (type : JSTypedArrayType) (buffer : List Byte) (byteOffset byteLength : Nat)
  deriving DecidableEq, Repr

/-- The shapes the engine can produce: the view lies inside its backing store and its kind is
neither of the two ids that do not denote a view. -/
def JSObject.wellFormed : JSObject → Bool
  | .plain => true
  | .arrayBuffer _ => true
  | .typedArray type buffer byteOffset byteLength =>
    decide (type ≠ kJSTypedArrayTypeArrayBuffer) && decide (type ≠ kJSTypedArrayTypeNone)
      && decide (byteOffset + byteLength ≤ buffer.length)

/-- An effect of the bridge that the properties below observe. -/
inductive Effect where
  | protect (obj : JSObjectRef)
  | unprotect (obj : JSObjectRef)
  | hostAlloc (size : Nat)
  deriving DecidableEq, Repr

/-- The class `JSCRuntime` (lines 40-70) together with the engine state behind `ctx`: the
object store, the flag `ctxInvalid`, and the effects performed so far, oldest first. -/
structure JSCRuntime where
  heap : List JSObject
  ctxInvalid : Bool
  trace : List Effect
  deriving DecidableEq, Repr

/-- The object a reference denotes. A reference to nothing is read as a plain object. -/
def JSCRuntime.object (rt : JSCRuntime) (ref : JSObjectRef) : JSObject :=
  rt.heap.getD ref JSObject.plain

/-- Engine retain count of an object: protect calls minus unprotect calls. -/
def JSCRuntime.retainCount (rt : JSCRuntime) (obj : JSObjectRef) : Int :=
  (rt.trace.count (Effect.protect obj) : Int) - (rt.trace.count (Effect.unprotect obj) : Int)

/-- A `void*` into engine memory: an address inside the backing store of an object. -/
structure BytesPtr where
  obj : JSObjectRef
  pos : Nat
  deriving DecidableEq, Repr

/-- The backing store of an object, if it has one. -/
def JSObject.backingStore : JSObject → Option (List Byte)
  | .plain => none
  | .arrayBuffer bytes => some bytes
  | .typedArray _ buffer _ _ => some buffer

/-- Replace the backing store of an object. -/
def JSObject.withBackingStore : JSObject → List Byte → JSObject
  | .plain, _ => .plain
  | .arrayBuffer _, mem => .arrayBuffer mem
  | .typedArray type _ byteOffset byteLength, mem => .typedArray type mem byteOffset byteLength

/-- Read `n` bytes at a pointer; `none` when the range leaves the allocation. -/
def JSCRuntime.load (rt : JSCRuntime) (p : BytesPtr) (n : Nat) : Option (List Byte) :=
  match (rt.object p.obj).backingStore with
  | none => none
  | some mem => if p.pos + n ≤ mem.length then some ((mem.drop p.pos).take n) else none

/-- Write bytes at a pointer; `none` when the range leaves the allocation. -/
def JSCRuntime.store (rt : JSCRuntime) (p : BytesPtr) (bytes : List Byte) : Option JSCRuntime :=
  match (rt.object p.obj).backingStore with
  | none => none
  | some mem =>
    if p.pos + bytes.length ≤ mem.length then
      some { rt with heap := rt.heap.set p.obj ((rt.object p.obj).withBackingStore
        (mem.take p.pos ++ bytes ++ mem.drop (p.pos + bytes.length))) }
    else none

/-- Engine call `JSValueProtect`. -/
def JSValueProtect (rt : JSCRuntime) (obj : JSObjectRef) : JSCRuntime :=
  { rt with trace := rt.trace ++ [Effect.protect obj] }

/-- Engine call `JSValueUnprotect`. -/
def JSValueUnprotect (rt : JSCRuntime) (obj : JSObjectRef) : JSCRuntime :=
  { rt with trace := rt.trace ++ [Effect.unprotect obj] }

/-- Engine call `JSValueGetTypedArrayType`: the typed-array type of a value, or
`kJSTypedArrayTypeNone` if the value is not a typed array object. -/
def JSValueGetTypedArrayType (rt : JSCRuntime) (value : JSValueRef) : JSTypedArrayType :=
  match value with
  | none => kJSTypedArrayTypeNone
  | some ref =>
    match rt.object ref with
    | .plain => kJSTypedArrayTypeNone
    | .arrayBuffer _ => kJSTypedArrayTypeArrayBuffer
    | .typedArray type _ _ _ => type

/-- Engine call `JSObjectGetTypedArrayByteLength`: the byte length of the typed array, or 0
if the object is not a typed array object. -/
def JSObjectGetTypedArrayByteLength (rt : JSCRuntime) (object : JSObjectRef) : Nat :=
  match rt.object object with
  | .typedArray _ _ _ byteLength => byteLength
  | _ => 0

/-- Engine call `JSObjectGetTypedArrayByteOffset`: the byte offset of the typed array, or 0
if the object is not a typed array object. -/
def JSObjectGetTypedArrayByteOffset (rt : JSCRuntime) (object : JSObjectRef) : Nat :=
  match rt.object object with
  | .typedArray _ _ byteOffset _ => byteOffset
  | _ => 0

/-- Engine call `JSObjectGetTypedArrayBytesPtr`: a pointer to the raw data buffer that serves
as the backing store of the typed array (its first byte, not the first byte of the view), or
`NULL` if the object is not a typed array object. -/
def JSObjectGetTypedArrayBytesPtr (rt : JSCRuntime) (object : JSObjectRef) : Option BytesPtr :=
  match rt.object object with
  | .typedArray _ _ _ _ => some ⟨object, 0⟩
  | _ => none

/-- Engine call `JSObjectGetArrayBufferByteLength`: the number of bytes stored in the array
buffer (0 for an object that is not one). -/
def JSObjectGetArrayBufferByteLength (rt : JSCRuntime) (object : JSObjectRef) : Nat :=
  match rt.object object with
  | .arrayBuffer bytes => bytes.length
  | _ => 0

/-- Engine call `JSObjectGetArrayBufferBytesPtr`: a pointer to the data of the array buffer,
or `NULL` if the object is not an array buffer. -/
def JSObjectGetArrayBufferBytesPtr (rt : JSCRuntime) (object : JSObjectRef) : Option BytesPtr :=
  match rt.object object with
  | .arrayBuffer _ => some ⟨object, 0⟩
  | _ => none

/-- Width in bytes of one element of an engine typed array of the given kind; `none` for the
two ids that do not denote a view. The kinds the source does not name have 64-bit elements. -/
def elementSize : JSTypedArrayType → Option Nat
  | kJSTypedArrayTypeInt8Array => some 1
  | kJSTypedArrayTypeInt16Array => some 2
  | kJSTypedArrayTypeInt32Array => some 4
  | kJSTypedArrayTypeUint8Array => some 1
  | kJSTypedArrayTypeUint8ClampedArray => some 1
  | kJSTypedArrayTypeUint16Array => some 2
  | kJSTypedArrayTypeUint32Array => some 4
  | kJSTypedArrayTypeFloat32Array => some 4
  | kJSTypedArrayTypeFloat64Array => some 8
  | kJSTypedArrayTypeArrayBuffer => none
  | kJSTypedArrayTypeNone => none
  | other _ => some 8

/-- Put a new object into the store and return its reference. -/
def JSCRuntime.alloc (rt : JSCRuntime) (o : JSObject) : JSObjectRef × JSCRuntime :=
  (rt.heap.length, { rt with heap := rt.heap ++ [o] })

/-- Engine call `JSObjectMakeTypedArray(ctx, arrayType, length, exception)`: a typed array of
`length` elements, all zero; `NULL` if `arrayType` is `kJSTypedArrayTypeNone` or
`kJSTypedArrayTypeArrayBuffer`. -/
def JSObjectMakeTypedArray (rt : JSCRuntime) (arrayType : JSTypedArrayType) (length : Nat) :
    JSValueRef × JSCRuntime :=
  match elementSize arrayType with
  | none => (none, rt)
  | some es =>
    let r := rt.alloc (.typedArray arrayType (List.replicate (length * es) 0) 0 (length * es))
    (some r.1, r.2)

/-- Engine call `JSObjectMakeTypedArrayWithBytesNoCopy(ctx, arrayType, bytes, byteLength,
...)`: a typed array whose backing store is the `byteLength` bytes at `bytes` and which holds
`byteLength / elementSize` elements; `NULL` if `arrayType` is `kJSTypedArrayTypeNone` or
`kJSTypedArrayTypeArrayBuffer`. -/
def JSObjectMakeTypedArrayWithBytesNoCopy (rt : JSCRuntime) (arrayType : JSTypedArrayType)
    (bytes : List Byte) (byteLength : Nat) : JSValueRef × JSCRuntime :=
  match elementSize arrayType with
  | none => (none, rt)
  | some es =>
    let r := rt.alloc (.typedArray arrayType (bytes.take byteLength) 0 (byteLength / es * es))
    (some r.1, r.2)

/-- Engine call `JSValueToObject`: the object of an object value; `NULL` for `NULL`. -/
def JSValueToObject (_rt : JSCRuntime) (value : JSValueRef) : Option JSObjectRef := value

/-- Engine call `JSObjectMake(ctx, nullptr, nullptr)`: a new plain object. -/
def JSObjectMake (rt : JSCRuntime) : JSObjectRef × JSCRuntime := rt.alloc .plain

/-! ## The host value abstraction -/

/-- What a call of the bridge can end in other than a normal return. -/
inductive Failure where
  | runtimeError (what : String)
  | jsError
  | badArrayNewLength
  | assertionFailed
  | memoryFault
  deriving DecidableEq, Repr

/-- The pointer value `JSCRuntime::JSCTypedArray` (lines 45-64). `ctx_` and `ctxInvalid_`
refer to the runtime the handle was made in; `obj_` is the engine object it owns. -/
structure JSCTypedArray where
  obj_ : JSObjectRef
  deriving DecidableEq, Repr

/-- A `jsi::Value`: one of the primitive kinds (payload left out) or an object carrying
its pointer value. -/
inductive Value where
  | undefined
  | null
  | boolean
  | number
  | symbol
  | string
  | object (ptr : JSCTypedArray)
  deriving DecidableEq, Repr

/-- The accessor `jsi::Value::asObject`: the object of the value; throws `JSError` if the
value is not an object. The temporary `jsi::Object` it yields is retained and released
again by the host abstraction within the same expression; that balanced pair is not traced. -/
def Value.asObject : Value → Except Failure JSCTypedArray
  | .object ptr => .ok ptr
  | _ => .error .jsError

/-- Constructor of `JSCTypedArray` (lines 47-52): stores the object and protects it. -/
def JSCTypedArray.new (rt : JSCRuntime) (obj : JSObjectRef) : JSCTypedArray × JSCRuntime :=
  (⟨obj⟩, JSValueProtect rt obj)

/-- The method `JSCTypedArray::invalidate` (lines 54-59). -/
def JSCTypedArray.invalidate (self : JSCTypedArray) (rt : JSCRuntime) : JSCRuntime :=
  if !rt.ctxInvalid then JSValueUnprotect rt self.obj_ else rt

/-- The function `getCtxRef` (lines 88-90): the runtime itself, seen as a `JSCRuntime`. -/
def getCtxRef (runtime : JSCRuntime) : JSCRuntime := runtime

/-- The function `Convert::toJSI` (lines 74-80). -/
def Convert.toJSI (jsc : JSCRuntime) (value : JSValueRef) : Value × JSCRuntime :=
  let made : JSObjectRef × JSCRuntime :=
    match JSValueToObject jsc value with
    | some objRef => (objRef, jsc)
    | none => JSObjectMake jsc
  let r := JSCTypedArray.new made.2 made.1
  (Value.object r.1, r.2)

/-- The function `Convert::toJSC` (lines 82-85). -/
def Convert.toJSC (_runtime : JSCRuntime) (value : Value) : Except Failure JSObjectRef :=
  match value.asObject with
  | .ok ptr => .ok ptr.obj_
  | .error e => .error e

/-! ## The conversion operations -/

/-- Conversion of a `size_t` to `int` (32 bits, two's complement): the value modulo `2^32`,
read as a signed number. A `size_t` product that already wrapped at `2^32` or `2^64`
converts to the same `int`, so the exact product can be passed. -/
def intOfSizeT (x : Nat) : Int :=
  if x % 4294967296 < 2147483648 then ((x % 4294967296 : Nat) : Int)
  else ((x % 4294967296 : Nat) : Int) - 4294967296

/-- The local `int byteLength = data.size() * sizeof(ContentType<T>)` of `create`
(line 95). -/
def TypedArray.createByteLength (T : TypedArray.Type_) (data : List (ContentType T)) : Int :=
  intOfSizeT (data.length * sizeofContentType T)

/-- The expression `new uint8_t[byteLength]` (line 103): throws on a negative length. -/
def newUint8Array (rt : JSCRuntime) (byteLength : Int) : Option JSCRuntime :=
  if byteLength < 0 then none
  else some { rt with trace := rt.trace ++ [Effect.hostAlloc byteLength.toNat] }

/-- The function template `TypedArray::create<T>` (lines 92-120). -/
def TypedArray.create (T : TypedArray.Type_) (runtime : JSCRuntime)
    (data : List (ContentType T)) : Except Failure Value × JSCRuntime :=
  let jsc := getCtxRef runtime
  let byteLength := TypedArray.createByteLength T data
  let arrayType := jscArrayType T
  if data.length ≠ 0 then
    match newUint8Array jsc byteLength with
    | none => (.error .badArrayNewLength, jsc)
    | some jsc1 =>
      let rawData := (vectorStorage data).take byteLength.toNat
      let made := JSObjectMakeTypedArrayWithBytesNoCopy jsc1 arrayType rawData byteLength.toNat
      let r := Convert.toJSI made.2 made.1
      (.ok r.1, r.2)
  else
    let made := JSObjectMakeTypedArray jsc arrayType 0
    let r := Convert.toJSI made.2 made.1
    (.ok r.1, r.2)

/-- The call `std::copy(data.begin(), data.end(), ptr)` (line 130). Copying an empty range
touches nothing, whatever the pointer. -/
def stdCopy (rt : JSCRuntime) (data : List Byte) (ptr : Option BytesPtr) : Option JSCRuntime :=
  if data.length = 0 then some rt
  else
    match ptr with
    | none => none
    | some p => rt.store p data

/-- The function `TypedArray::updateWithData` (lines 122-131). -/
def TypedArray.updateWithData (runtime : JSCRuntime) (jsValue : Value) (data : List Byte) :
    Except Failure Unit × JSCRuntime :=
  let jsc := getCtxRef runtime
  match Convert.toJSC runtime jsValue with
  | .error e => (.error e, jsc)
  | .ok jsObjectRef =>
    let byteLength := JSObjectGetTypedArrayByteLength jsc jsObjectRef
    if byteLength < data.length then
      (.error (.runtimeError "TypedArray to small to fit provided data"), jsc)
    else
      let ptr := JSObjectGetTypedArrayBytesPtr jsc jsObjectRef
      match stdCopy jsc data ptr with
      | some jsc1 => (.ok (), jsc1)
      | none => (.error .memoryFault, jsc)

/-- Read `n` consecutive elements of `ContentType<T>` from memory (the range constructor of
`std::vector`, line 170); `none` when the memory is too short. -/
def readElements (T : TypedArray.Type_) : Nat → List Byte → Option (List (ContentType T))
  | 0, _ => some []
  | n + 1, mem =>
    if h : sizeofContentType T ≤ mem.length then
      match readElements T n (mem.drop (sizeofContentType T)) with
      | some rest =>
        some (⟨mem.take (sizeofContentType T), by rw [List.length_take]; omega⟩ :: rest)
      | none => none
    else none

/-- The three locals `data`, `byteLength`, `byteOffset` of `fromJSValue` after the two
branches on the engine type (lines 148-162). -/
def TypedArray.byteRegion (jsc : JSCRuntime) (jsObject : JSObjectRef) :
    Option BytesPtr × Nat × Nat :=
  let type := JSValueGetTypedArrayType jsc (some jsObject)
  if type = kJSTypedArrayTypeArrayBuffer then
    (JSObjectGetArrayBufferBytesPtr jsc jsObject, JSObjectGetArrayBufferByteLength jsc jsObject, 0)
  else if type ≠ kJSTypedArrayTypeNone then
    (JSObjectGetTypedArrayBytesPtr jsc jsObject, JSObjectGetTypedArrayByteLength jsc jsObject,
      JSObjectGetTypedArrayByteOffset jsc jsObject)
  else (none, 0, 0)

/-- The function template `TypedArray::fromJSValue<T>` (lines 133-171). `ndebug` says
whether the file is compiled with `NDEBUG` defined: the `assert` of line 167 then expands
to nothing, otherwise a false condition ends the call. Past that line the range
constructor of line 170 copies `end - start` elements, that is
`byteLength / sizeof(ContentType<T>)` whole elements from `data + byteOffset` on. -/
def TypedArray.fromJSValue (T : TypedArray.Type_) (ndebug : Bool) (runtime : JSCRuntime)
    (jsVal : Value) : Except Failure (List (ContentType T)) :=
  let jsc := getCtxRef runtime
  match Convert.toJSC runtime jsVal with
  | .error e => .error e
  | .ok jsObject =>
    match TypedArray.byteRegion jsc jsObject with
    | (none, _, _) => .error (.runtimeError "Invalid typed array data")
    | (some data, byteLength, byteOffset) =>
      if ndebug = false ∧ byteLength % sizeofContentType T ≠ 0 then .error .assertionFailed
      else
        match jsc.load ⟨data.obj, data.pos + byteOffset⟩ byteLength with
        | none => .error .memoryFault
        | some span =>
          match readElements T (byteLength / sizeofContentType T) span with
          | none => .error .memoryFault
          | some result => .ok result

/-- The function `TypedArray::rawFromJSValue` (lines 173-175). -/
def TypedArray.rawFromJSValue (ndebug : Bool) (runtime : JSCRuntime) (val : Value) :
    Except Failure (List (ContentType .Uint8Array)) :=
  TypedArray.fromJSValue .Uint8Array ndebug runtime val

/-- The `switch` of `typeFromJSValue` (lines 180-192). -/
def typeOfEngineType : JSTypedArrayType → TypedArray.Type_
  | kJSTypedArrayTypeInt8Array => .Int8Array
  | kJSTypedArrayTypeInt16Array => .Int16Array
  | kJSTypedArrayTypeInt32Array => .Int32Array
  | kJSTypedArrayTypeUint8Array => .Uint8Array
  | kJSTypedArrayTypeUint8ClampedArray => .Uint8ClampedArray
  | kJSTypedArrayTypeUint16Array => .Uint16Array
  | kJSTypedArrayTypeUint32Array => .Uint32Array
  | kJSTypedArrayTypeFloat32Array => .Float32Array
  | kJSTypedArrayTypeFloat64Array => .Float64Array
  | kJSTypedArrayTypeArrayBuffer => .ArrayBuffer
  | _ => .None

/-- The function `TypedArray::typeFromJSValue` (lines 177-194). -/
def TypedArray.typeFromJSValue (runtime : JSCRuntime) (jsVal : Value) :
    Except Failure TypedArray.Type_ :=
  let jsc := getCtxRef runtime
  match Convert.toJSC runtime jsVal with
  | .error e => .error e
  | .ok obj => .ok (typeOfEngineType (JSValueGetTypedArrayType jsc (some obj)))

/-! ## Values and states used in the statements -/

/-- Object representation of the `int32_t` value `v`: two's complement, four bytes, in the
byte order of the platform. -/
def int32 (bigEndian : Bool) (v : Int) : ContentType .Int32Array :=
  let u : Nat := (v % 4294967296).toNat
  let b0 : Byte := ⟨u % 256, Nat.mod_lt _ (by decide)⟩
  let b1 : Byte := ⟨u / 256 % 256, Nat.mod_lt _ (by decide)⟩
  let b2 : Byte := ⟨u / 65536 % 256, Nat.mod_lt _ (by decide)⟩
  let b3 : Byte := ⟨u / 16777216 % 256, Nat.mod_lt _ (by decide)⟩
  ⟨if bigEndian then [b3, b2, b1, b0] else [b0, b1, b2, b3], by cases bigEndian <;> rfl⟩

/-- The element types for which the engine builds a typed array. -/
def isViewType (T : TypedArray.Type_) : Bool :=
  decide (T ≠ .ArrayBuffer) && decide (T ≠ .None)

/-- The runtime before any object exists. -/
def emptyRuntime : JSCRuntime := ⟨[], false, []⟩

/-- The byte span of a handle in the words of the specification: the whole buffer, from
offset 0, for a plain array buffer; the `byteLength` bytes starting at the byte offset of
the view for a typed array; none for any other object. -/
def specByteSpan : JSObject → Option (List Byte)
  | .plain => none
  | .arrayBuffer bytes => some bytes
  | .typedArray _ buffer byteOffset byteLength => some ((buffer.drop byteOffset).take byteLength)

/-- A runtime holding one `Uint8Array` view of 4 bytes at byte offset 2 of a 6-byte buffer
(in the engine's language: `new Uint8Array(new ArrayBuffer(6), 2, 4)` filled with 0..5). -/
def offsetViewRuntime : JSCRuntime :=
  ⟨[.typedArray kJSTypedArrayTypeUint8Array [0, 1, 2, 3, 4, 5] 2 4], false, []⟩

/-- A runtime holding one array buffer of six bytes. -/
def sixByteBufferRuntime : JSCRuntime := ⟨[.arrayBuffer [0, 1, 2, 3, 4, 5]], false, []⟩

/-- A runtime holding one array buffer of four bytes. -/
def arrayBufferRuntime : JSCRuntime := ⟨[.arrayBuffer [1, 2, 3, 4]], false, []⟩

/-! ## Properties -/

open TypedArray

/-! ### Shared lemmas: storage, creation, reading -/

theorem vectorStorage_length {T : TypedArray.Type_} (S : List (ContentType T)) :
    (vectorStorage S).length = S.length * sizeofContentType T := by
  induction S with
  | nil => simp [vectorStorage]
  | cons e es ih =>
    simp only [vectorStorage, List.length_append, List.length_cons, ih, e.size_eq]
    rw [Nat.add_mul, Nat.one_mul, Nat.add_comm]

theorem sizeofContentType_pos (T : TypedArray.Type_) : 0 < sizeofContentType T := by
  cases T <;> decide

theorem readElements_vectorStorage {T : TypedArray.Type_} (S : List (ContentType T))
    (rest : List Byte) :
    readElements T S.length (vectorStorage S ++ rest) = some S := by
  induction S with
  | nil => rfl
  | cons e es ih =>
    have hle : sizeofContentType T ≤ (vectorStorage (e :: es) ++ rest).length := by
      simp only [vectorStorage, List.length_append, e.size_eq]; omega
    simp only [List.length_cons, readElements, hle, dite_true]
    have hdrop : (vectorStorage (e :: es) ++ rest).drop (sizeofContentType T)
        = vectorStorage es ++ rest := by
      simp only [vectorStorage, List.append_assoc]
      rw [← e.size_eq, List.drop_left]
    have htake : (vectorStorage (e :: es) ++ rest).take (sizeofContentType T) = e.bytes := by
      simp only [vectorStorage, List.append_assoc]
      rw [← e.size_eq, List.take_left]
    rw [hdrop, ih]
    simp only [htake]

theorem elementSize_jscTypeMap (T : TypedArray.Type_) (hT : isViewType T = true) :
    elementSize (jscTypeMap T) = some (sizeofContentType T) := by
  cases T <;> first | rfl | exact absurd hT (by decide)

theorem intOfSizeT_of_lt (x : Nat) (h : x < 2147483648) : intOfSizeT x = (x : Int) := by
  unfold intOfSizeT
  have h1 : x % 4294967296 = x := Nat.mod_eq_of_lt (by omega)
  rw [h1, if_pos h]

theorem create_nonempty {T : TypedArray.Type_} (rt : JSCRuntime) (S : List (ContentType T))
    (hT : isViewType T = true) (hS : S ≠ [])
    (hfit : S.length * sizeofContentType T < 2147483648) :
    create T rt S =
      (.ok (.object ⟨rt.heap.length⟩),
        { heap := rt.heap ++ [.typedArray (jscTypeMap T) (vectorStorage S) 0
            (S.length * sizeofContentType T)],
          ctxInvalid := rt.ctxInvalid,
          trace := rt.trace ++ [Effect.hostAlloc (S.length * sizeofContentType T),
            Effect.protect rt.heap.length] }) := by
  have hlen : S.length ≠ 0 := by
    intro h; exact hS (List.length_eq_zero.mp h)
  have hw := sizeofContentType_pos T
  simp only [create, getCtxRef, createByteLength, intOfSizeT_of_lt _ hfit, ne_eq, hlen,
    not_false_eq_true, if_true, newUint8Array, Int.toNat_ofNat,
    JSObjectMakeTypedArrayWithBytesNoCopy, jscArrayType, elementSize_jscTypeMap T hT,
    JSCRuntime.alloc, Convert.toJSI, JSValueToObject, JSCTypedArray.new, JSValueProtect]
  have h0 : ¬ ((S.length * sizeofContentType T : Nat) : Int) < 0 := by omega
  simp only [h0, if_false]
  have htake : (vectorStorage S).take (S.length * sizeofContentType T) = vectorStorage S := by
    rw [← vectorStorage_length S, List.take_length]
  simp only [htake, Nat.mul_div_cancel _ hw, List.append_assoc, List.singleton_append]

theorem create_empty {T : TypedArray.Type_} (rt : JSCRuntime) (hT : isViewType T = true) :
    create T rt [] =
      (.ok (.object ⟨rt.heap.length⟩),
        { heap := rt.heap ++ [.typedArray (jscTypeMap T) [] 0 0],
          ctxInvalid := rt.ctxInvalid,
          trace := rt.trace ++ [Effect.protect rt.heap.length] }) := by
  simp [create, getCtxRef, JSObjectMakeTypedArray, jscArrayType, elementSize_jscTypeMap T hT,
    JSCRuntime.alloc, Convert.toJSI, JSValueToObject, JSCTypedArray.new, JSValueProtect]

theorem byteRegion_typedArray (rt : JSCRuntime) (ref : JSObjectRef) (ty : JSTypedArrayType)
    (buf : List Byte) (off len : Nat) (hobj : rt.object ref = .typedArray ty buf off len)
    (h1 : ty ≠ kJSTypedArrayTypeArrayBuffer) (h2 : ty ≠ kJSTypedArrayTypeNone) :
    byteRegion rt ref = (some ⟨ref, 0⟩, len, off) := by
  simp [byteRegion, JSValueGetTypedArrayType, JSObjectGetTypedArrayBytesPtr,
    JSObjectGetTypedArrayByteLength, JSObjectGetTypedArrayByteOffset, hobj, h1, h2]

theorem byteRegion_arrayBuffer (rt : JSCRuntime) (ref : JSObjectRef) (bytes : List Byte)
    (hobj : rt.object ref = .arrayBuffer bytes) :
    byteRegion rt ref = (some ⟨ref, 0⟩, bytes.length, 0) := by
  simp [byteRegion, JSValueGetTypedArrayType, JSObjectGetArrayBufferBytesPtr,
    JSObjectGetArrayBufferByteLength, hobj]

theorem readElements_spec (T : TypedArray.Type_) (n : Nat) (mem : List Byte)
    (h : n * sizeofContentType T ≤ mem.length) :
    ∃ xs, readElements T n mem = some xs ∧ xs.length = n ∧
      vectorStorage xs = mem.take (n * sizeofContentType T) := by
  induction n generalizing mem with
  | zero => exact ⟨[], rfl, rfl, by simp [vectorStorage]⟩
  | succ n ih =>
    have hw : sizeofContentType T ≤ mem.length := by
      rw [Nat.succ_mul] at h; omega
    have hrest : n * sizeofContentType T ≤ (mem.drop (sizeofContentType T)).length := by
      rw [List.length_drop, Nat.succ_mul] at *; omega
    obtain ⟨xs, hxs, hl, hst⟩ := ih (mem.drop (sizeofContentType T)) hrest
    refine ⟨⟨mem.take (sizeofContentType T), by rw [List.length_take]; omega⟩ :: xs, ?_, ?_, ?_⟩
    · simp only [readElements, hw, dite_true, hxs]
    · simp [hl]
    · simp only [vectorStorage, hst]
      rw [Nat.succ_mul, Nat.add_comm (n * sizeofContentType T), List.take_add]

/-- Reading a handle whose object has the byte span `len` bytes at `off` in `mem`, when the
assertion is compiled out or holds: the whole elements at the start of the span. -/
theorem fromJSValue_of_region_floor (T : TypedArray.Type_) (ndebug : Bool) (rt : JSCRuntime)
    (ref : JSObjectRef) (mem : List Byte) (off len : Nat)
    (hreg : byteRegion rt ref = (some ⟨ref, 0⟩, len, off))
    (hmem : (rt.object ref).backingStore = some mem) (hin : off + len ≤ mem.length)
    (hpass : ndebug = true ∨ len % sizeofContentType T = 0) :
    ∃ xs, fromJSValue T ndebug rt (.object ⟨ref⟩) = .ok xs ∧
      xs.length = len / sizeofContentType T ∧
      vectorStorage xs = ((mem.drop off).take len).take
        (len / sizeofContentType T * sizeofContentType T) := by
  have hspan : len / sizeofContentType T * sizeofContentType T
      ≤ ((mem.drop off).take len).length := by
    have hle := Nat.div_mul_le_self len (sizeofContentType T)
    rw [List.length_take, List.length_drop]
    omega
  have hcond : ¬ (ndebug = false ∧ len % sizeofContentType T ≠ 0) := by
    rintro ⟨h1, h2⟩
    rcases hpass with h | h
    · rw [h1] at h; cases h
    · exact h2 h
  obtain ⟨xs, hxs, hl, hst⟩ := readElements_spec T _ _ hspan
  refine ⟨xs, ?_, hl, hst⟩
  simp only [fromJSValue, Convert.toJSC, Value.asObject, getCtxRef, hreg, hcond, if_false,
    JSCRuntime.load, hmem, Nat.zero_add, hin, if_true, hxs]

/-- Reading a handle whose object has the byte span `len` bytes at `off` in `mem`, for a
length that is a multiple of the element width: the whole span. -/
theorem fromJSValue_of_region (T : TypedArray.Type_) (ndebug : Bool) (rt : JSCRuntime)
    (ref : JSObjectRef) (mem : List Byte) (off len : Nat)
    (hreg : byteRegion rt ref = (some ⟨ref, 0⟩, len, off))
    (hmem : (rt.object ref).backingStore = some mem) (hin : off + len ≤ mem.length)
    (hmod : len % sizeofContentType T = 0) :
    ∃ xs, fromJSValue T ndebug rt (.object ⟨ref⟩) = .ok xs ∧
      xs.length = len / sizeofContentType T ∧
      vectorStorage xs = (mem.drop off).take len := by
  obtain ⟨xs, h1, h2, h3⟩ :=
    fromJSValue_of_region_floor T ndebug rt ref mem off len hreg hmem hin (Or.inr hmod)
  refine ⟨xs, h1, h2, ?_⟩
  rw [h3, Nat.div_mul_cancel (Nat.dvd_of_mod_eq_zero hmod), List.take_take]
  simp

theorem fromJSValue_assert (T : TypedArray.Type_) (rt : JSCRuntime) (ref : JSObjectRef)
    (p : BytesPtr) (off len : Nat)
    (hreg : byteRegion rt ref = (some p, len, off))
    (hmod : len % sizeofContentType T ≠ 0) :
    fromJSValue T false rt (.object ⟨ref⟩) = .error .assertionFailed := by
  simp [fromJSValue, Convert.toJSC, Value.asObject, getCtxRef, hreg, hmod]

theorem isViewType_of_ne {T : TypedArray.Type_} (hAB : T ≠ .ArrayBuffer) (hNone : T ≠ .None) :
    isViewType T = true := by
  simp [isViewType, hAB, hNone]

theorem jscTypeMap_view {T : TypedArray.Type_} (hT : isViewType T = true) :
    jscTypeMap T ≠ kJSTypedArrayTypeArrayBuffer ∧ jscTypeMap T ≠ kJSTypedArrayTypeNone := by
  cases T <;> first | exact ⟨by decide, by decide⟩ | exact absurd hT (by decide)

/-- What `create` returns and leaves behind, for a typed-array element type and a sequence
whose byte length fits an `int`. -/
theorem create_view {T : TypedArray.Type_} (rt : JSCRuntime) (S : List (ContentType T))
    (hT : isViewType T = true) (hfit : S.length * sizeofContentType T < 2147483648) :
    create T rt S =
      (.ok (.object ⟨rt.heap.length⟩),
        { heap := rt.heap ++ [.typedArray (jscTypeMap T) (vectorStorage S) 0
            (S.length * sizeofContentType T)],
          ctxInvalid := rt.ctxInvalid,
          trace := rt.trace ++
            ((if S.length ≠ 0 then [Effect.hostAlloc (S.length * sizeofContentType T)] else [])
              ++ [Effect.protect rt.heap.length]) }) := by
  cases S with
  | nil => rw [create_empty rt hT]; simp [vectorStorage]
  | cons e es => rw [create_nonempty rt (e :: es) hT (by simp) hfit]; simp

/-- Reading a handle whose object is a view of exactly the storage of `S`. -/
theorem fromJSValue_storage {T : TypedArray.Type_} (ndebug : Bool) (rt : JSCRuntime)
    (ref : JSObjectRef) (S : List (ContentType T)) (ty : JSTypedArrayType)
    (h1 : ty ≠ kJSTypedArrayTypeArrayBuffer) (h2 : ty ≠ kJSTypedArrayTypeNone)
    (hobj : rt.object ref
      = .typedArray ty (vectorStorage S) 0 (S.length * sizeofContentType T)) :
    fromJSValue T ndebug rt (.object ⟨ref⟩) = .ok S := by
  have hreg := byteRegion_typedArray rt ref ty _ _ _ hobj h1 h2
  have hw := sizeofContentType_pos T
  have hrd := readElements_vectorStorage S []
  rw [List.append_nil] at hrd
  have htake : (vectorStorage S).take (S.length * sizeofContentType T) = vectorStorage S := by
    rw [← vectorStorage_length S, List.take_length]
  simp [fromJSValue, Convert.toJSC, Value.asObject, getCtxRef, hreg, JSCRuntime.load, hobj,
    JSObject.backingStore, vectorStorage_length, htake, Nat.mul_div_cancel _ hw, hrd]

theorem object_append_new (heap : List JSObject) (b : Bool) (tr : List Effect) (o : JSObject) :
    (JSCRuntime.mk (heap ++ [o]) b tr).object heap.length = o := by
  simp [JSCRuntime.object, List.getD_eq_getElem?_getD]

/-! ### Round trip (C1) -/

/-- C1 (amended). Round trip: for every typed-array element type `T` (every tag except
`ArrayBuffer` and `None`), every runtime state and every sequence `S` of `T`-elements whose
byte length `S.length * sizeof(ContentType<T>)` is below `2^31` (the empty sequence
included), `create<T>(S)` returns a handle and `fromJSValue<T>` on that handle succeeds
and returns `S`, element for element and byte for byte, with or without `NDEBUG`. -/
theorem create_fromJSValue_roundtrip (T : TypedArray.Type_) (ndebug : Bool) (rt : JSCRuntime)
    (S : List (ContentType T)) (hAB : T ≠ .ArrayBuffer) (hNone : T ≠ .None)
    (hfit : S.length * sizeofContentType T < 2147483648) :
    ∃ v, (create T rt S).1 = .ok v ∧ fromJSValue T ndebug (create T rt S).2 v = .ok S := by
  have hT := isViewType_of_ne hAB hNone
  rw [create_view rt S hT hfit]
  exact ⟨_, rfl, fromJSValue_storage ndebug _ _ S _ (jscTypeMap_view hT).1
    (jscTypeMap_view hT).2 (object_append_new _ _ _ _)⟩

theorem create_fromJSValue_roundtrip_witness :
    ∃ v, (create .Float32Array emptyRuntime [⟨[0, 0, 128, 63], rfl⟩, ⟨[0, 0, 0, 64], rfl⟩]).1
        = .ok v ∧
      fromJSValue .Float32Array true
        (create .Float32Array emptyRuntime [⟨[0, 0, 128, 63], rfl⟩, ⟨[0, 0, 0, 64], rfl⟩]).2 v
        = .ok [⟨[0, 0, 128, 63], rfl⟩, ⟨[0, 0, 0, 64], rfl⟩] :=
  create_fromJSValue_roundtrip .Float32Array true emptyRuntime _ (by decide) (by decide)
    (by decide)

/-- C1 (as stated) fails at `T = ArrayBuffer`: the engine builds no typed array for that id,
`Convert::toJSI` wraps a new plain object instead, and reading it back raises the
invalid-data error instead of returning the one-byte sequence that was passed in, with
or without `NDEBUG`. -/
theorem create_fromJSValue_roundtrip_fails_ArrayBuffer :
    (create .ArrayBuffer emptyRuntime [⟨[7], rfl⟩]).1 = .ok (.object ⟨0⟩) ∧
      fromJSValue .ArrayBuffer false (create .ArrayBuffer emptyRuntime [⟨[7], rfl⟩]).2
        (.object ⟨0⟩) = .error (.runtimeError "Invalid typed array data") ∧
      fromJSValue .ArrayBuffer true (create .ArrayBuffer emptyRuntime [⟨[7], rfl⟩]).2
        (.object ⟨0⟩) = .error (.runtimeError "Invalid typed array data") ∧
      fromJSValue .ArrayBuffer false (create .ArrayBuffer emptyRuntime [⟨[7], rfl⟩]).2
        (.object ⟨0⟩) ≠ .ok [⟨[7], rfl⟩] ∧
      fromJSValue .ArrayBuffer true (create .ArrayBuffer emptyRuntime [⟨[7], rfl⟩]).2
        (.object ⟨0⟩) ≠ .ok [⟨[7], rfl⟩] := by
  decide

/-! ### Type detection after creation (C4) and the zero-length path (C7) -/

theorem typeOfEngineType_jscTypeMap (T : TypedArray.Type_) :
    typeOfEngineType (jscTypeMap T) = T := by
  cases T <;> rfl

theorem create_fst_ok_object (T : TypedArray.Type_) (rt : JSCRuntime)
    (S : List (ContentType T)) (v : Value) (rt1 : JSCRuntime)
    (h : create T rt S = (.ok v, rt1)) :
    ∃ ref, v = .object ⟨ref⟩ ∧
      (elementSize (jscTypeMap T) = none → rt1.object ref = .plain) ∧
      (∀ es, elementSize (jscTypeMap T) = some es →
        ∃ buf len, rt1.object ref = .typedArray (jscTypeMap T) buf 0 len) := by
  unfold create at h
  simp only [getCtxRef, jscArrayType, newUint8Array, JSObjectMakeTypedArrayWithBytesNoCopy,
    JSObjectMakeTypedArray, Convert.toJSI, JSValueToObject, JSObjectMake, JSCTypedArray.new,
    JSValueProtect, JSCRuntime.alloc] at h
  cases hes : elementSize (jscTypeMap T) with
  | none =>
    simp only [hes] at h
    split at h
    · split at h
      · simp at h
      · simp only [Prod.mk.injEq, Except.ok.injEq] at h
        refine ⟨_, h.1.symm, fun _ => ?_, fun es hh => by simp at hh⟩
        rw [← h.2]
        simp [JSCRuntime.object, List.getD_eq_getElem?_getD]
    · simp only [Prod.mk.injEq, Except.ok.injEq] at h
      refine ⟨_, h.1.symm, fun _ => ?_, fun es hh => by simp at hh⟩
      rw [← h.2]
      simp [JSCRuntime.object, List.getD_eq_getElem?_getD]
  | some es =>
    simp only [hes] at h
    split at h
    · split at h
      · simp at h
      · simp only [Prod.mk.injEq, Except.ok.injEq] at h
        obtain ⟨hv, hrt⟩ := h
        subst hv hrt
        refine ⟨_, rfl, fun hh => by simp at hh, fun _ _ => ?_⟩
        simp [JSCRuntime.object, List.getD_eq_getElem?_getD]
    · simp only [Prod.mk.injEq, Except.ok.injEq] at h
      obtain ⟨hv, hrt⟩ := h
      subst hv hrt
      refine ⟨_, rfl, fun hh => by simp at hh, fun _ _ => ?_⟩
      simp [JSCRuntime.object, List.getD_eq_getElem?_getD]

theorem create_returns (T : TypedArray.Type_) (rt : JSCRuntime) (S : List (ContentType T))
    (hfit : S.length * sizeofContentType T < 2147483648) :
    ∃ v, (create T rt S).1 = .ok v := by
  have h0 : ¬ ((S.length * sizeofContentType T : Nat) : Int) < 0 := by omega
  unfold create
  simp only [getCtxRef, createByteLength, intOfSizeT_of_lt _ hfit, newUint8Array, h0, if_false]
  split
  · exact ⟨_, rfl⟩
  · exact ⟨_, rfl⟩

theorem elementSize_jscTypeMap_none {T : TypedArray.Type_}
    (h : elementSize (jscTypeMap T) = none) : T = .ArrayBuffer ∨ T = .None := by
  cases T <;> first | exact Or.inl rfl | exact Or.inr rfl | exact absurd h (by decide)

theorem jscTypeMap_injective : Function.Injective jscTypeMap := by
  intro a b h
  have := congrArg typeOfEngineType h
  rwa [typeOfEngineType_jscTypeMap, typeOfEngineType_jscTypeMap] at this

/-- C4 (amended). Type detection inverts creation for every element type except
`ArrayBuffer`: for every `T ≠ ArrayBuffer`, every runtime state and every sequence `S`,
any value returned by `create<T>(S)` is detected as `T` by `typeFromJSValue`, and
`create<T>(S)` does return a value whenever the byte length of `S` is below `2^31`. The
table `jscTypeMap` followed by the switch of `typeFromJSValue` is the identity on all
eleven element types, so `jscTypeMap` is total and injective. -/
theorem typeFromJSValue_create (T : TypedArray.Type_) (rt : JSCRuntime)
    (S : List (ContentType T)) (hAB : T ≠ .ArrayBuffer) :
    (∀ v rt1, create T rt S = (.ok v, rt1) → typeFromJSValue rt1 v = .ok T) ∧
    (S.length * sizeofContentType T < 2147483648 → ∃ v, (create T rt S).1 = .ok v) ∧
    (∀ U, typeOfEngineType (jscTypeMap U) = U) ∧
    Function.Injective jscTypeMap := by
  refine ⟨?_, create_returns T rt S, typeOfEngineType_jscTypeMap, jscTypeMap_injective⟩
  intro v rt1 h
  obtain ⟨ref, hv, hnone, hsome⟩ := create_fst_ok_object T rt S v rt1 h
  subst hv
  cases hes : elementSize (jscTypeMap T) with
  | none =>
    have hT : T = .None := (elementSize_jscTypeMap_none hes).resolve_left hAB
    simp [typeFromJSValue, Convert.toJSC, Value.asObject, getCtxRef, JSValueGetTypedArrayType,
      hnone hes, hT, typeOfEngineType]
  | some es =>
    obtain ⟨buf, len, hobj⟩ := hsome es hes
    simp [typeFromJSValue, Convert.toJSC, Value.asObject, getCtxRef, JSValueGetTypedArrayType,
      hobj, typeOfEngineType_jscTypeMap]

theorem typeFromJSValue_create_witness :
    (∀ v rt1, create .Int32Array emptyRuntime [int32 false 1, int32 false 2] = (.ok v, rt1) →
      typeFromJSValue rt1 v = .ok .Int32Array) ∧
    ([int32 false 1, int32 false 2].length * sizeofContentType .Int32Array < 2147483648 →
      ∃ v, (create .Int32Array emptyRuntime [int32 false 1, int32 false 2]).1 = .ok v) ∧
    (∀ U, typeOfEngineType (jscTypeMap U) = U) ∧
    Function.Injective jscTypeMap :=
  typeFromJSValue_create .Int32Array emptyRuntime [int32 false 1, int32 false 2] (by decide)

/-- C4 (as stated) fails at `T = ArrayBuffer`: the value `create<ArrayBuffer>` returns for
the empty sequence wraps a plain object, which `typeFromJSValue` reports as `None`. -/
theorem typeFromJSValue_create_fails_ArrayBuffer :
    (create .ArrayBuffer emptyRuntime []).1 = .ok (.object ⟨0⟩) ∧
      typeFromJSValue (create .ArrayBuffer emptyRuntime []).2 (.object ⟨0⟩) = .ok .None ∧
      typeFromJSValue (create .ArrayBuffer emptyRuntime []).2 (.object ⟨0⟩)
        ≠ .ok .ArrayBuffer := by
  decide

/-- C7 (amended). Zero-length path: for every typed-array element type `T` (every tag except
`ArrayBuffer` and `None`) and every runtime state, `create<T>` on the empty sequence
performs no host allocation (its only traced effect is the protect call of the new handle)
and returns a handle on which `fromJSValue<T>` succeeds with the empty sequence (with or
without `NDEBUG`) and on which `typeFromJSValue` returns `T`; in particular for
`T = Float32Array`. -/
theorem create_empty_path (T : TypedArray.Type_) (ndebug : Bool) (rt : JSCRuntime)
    (hAB : T ≠ .ArrayBuffer) (hNone : T ≠ .None) :
    (create T rt []).2.trace = rt.trace ++ [Effect.protect rt.heap.length] ∧
    ∃ v, (create T rt []).1 = .ok v ∧
      fromJSValue T ndebug (create T rt []).2 v = .ok [] ∧
      typeFromJSValue (create T rt []).2 v = .ok T := by
  have hT := isViewType_of_ne hAB hNone
  have hobj : (JSCRuntime.mk (rt.heap ++ [JSObject.typedArray (jscTypeMap T) [] 0 0])
      rt.ctxInvalid (rt.trace ++ [Effect.protect rt.heap.length])).object rt.heap.length
      = .typedArray (jscTypeMap T) [] 0 0 := object_append_new _ _ _ _
  rw [create_empty rt hT]
  refine ⟨rfl, _, rfl, ?_, ?_⟩
  · exact fromJSValue_storage ndebug _ _ [] _ (jscTypeMap_view hT).1 (jscTypeMap_view hT).2
      (by rw [hobj]; simp [vectorStorage])
  · simp [typeFromJSValue, Convert.toJSC, Value.asObject, getCtxRef, JSValueGetTypedArrayType,
      hobj, typeOfEngineType_jscTypeMap]

theorem create_empty_path_witness :
    (create .Float32Array emptyRuntime []).2.trace
      = emptyRuntime.trace ++ [Effect.protect emptyRuntime.heap.length] ∧
    ∃ v, (create .Float32Array emptyRuntime []).1 = .ok v ∧
      fromJSValue .Float32Array true (create .Float32Array emptyRuntime []).2 v = .ok [] ∧
      typeFromJSValue (create .Float32Array emptyRuntime []).2 v = .ok .Float32Array :=
  create_empty_path .Float32Array true emptyRuntime (by decide) (by decide)

/-- C7 (as stated) fails at `T = None`: the handle `create<None>` returns for the empty
sequence wraps a plain object, and `fromJSValue<None>` on it raises the invalid-data
error instead of returning the empty sequence, with or without `NDEBUG`. -/
theorem create_empty_path_fails_None :
    (create .None emptyRuntime []).1 = .ok (.object ⟨0⟩) ∧
      fromJSValue .None false (create .None emptyRuntime []).2 (.object ⟨0⟩)
        = .error (.runtimeError "Invalid typed array data") ∧
      fromJSValue .None true (create .None emptyRuntime []).2 (.object ⟨0⟩)
        = .error (.runtimeError "Invalid typed array data") ∧
      fromJSValue .None false (create .None emptyRuntime []).2 (.object ⟨0⟩) ≠ .ok [] ∧
      fromJSValue .None true (create .None emptyRuntime []).2 (.object ⟨0⟩) ≠ .ok [] := by
  decide

/-! ### Element width on read (C9) -/

theorem region_of_span (rt : JSCRuntime) (ref : JSObjectRef) (span : List Byte)
    (hwf : (rt.object ref).wellFormed = true)
    (hspan : specByteSpan (rt.object ref) = some span) :
    ∃ mem off, byteRegion rt ref = (some ⟨ref, 0⟩, span.length, off) ∧
      (rt.object ref).backingStore = some mem ∧ off + span.length ≤ mem.length ∧
      (mem.drop off).take span.length = span := by
  cases hobj : rt.object ref with
  | plain => rw [hobj] at hspan; simp [specByteSpan] at hspan
  | arrayBuffer bytes =>
    rw [hobj] at hspan
    simp only [specByteSpan, Option.some.injEq] at hspan
    subst hspan
    exact ⟨bytes, 0, byteRegion_arrayBuffer rt ref bytes hobj, rfl, by omega, by simp⟩
  | typedArray ty buf off len =>
    rw [hobj] at hspan hwf
    simp only [specByteSpan, Option.some.injEq] at hspan
    simp only [JSObject.wellFormed, Bool.and_eq_true, decide_eq_true_eq] at hwf
    obtain ⟨⟨h1, h2⟩, h3⟩ := hwf
    have hlen : span.length = len := by
      rw [← hspan, List.length_take, List.length_drop]; omega
    rw [hlen]
    exact ⟨buf, off, byteRegion_typedArray rt ref ty buf off len hobj h1 h2, rfl, h3, hspan⟩

/-- C9 (amended). Element-width invariant on read, for every element type `T` and every
handle whose object is an array buffer or a typed array (as the engine builds them) with
byte span `span` (the view's `byteLength` bytes starting at its byte offset; the whole
buffer from offset 0 for a plain array buffer).
In a build that keeps assertions (`NDEBUG` not defined): if `span.length` is not a
multiple of `sizeof(ContentType<T>)` then `fromJSValue<T>` fails with the assertion
failure, and whatever it returns is the whole span, never truncated or padded.
In every build: if `span.length` is a multiple of the width, `fromJSValue<T>` returns
exactly `span.length / sizeof(ContentType<T>)` elements whose bytes are the span; and
whatever it returns has `span.length / sizeof(ContentType<T>)` (rounded down) elements,
whose bytes are the leading bytes of the span.
With `NDEBUG` defined the call returns for every length. -/
theorem fromJSValue_element_width (T : TypedArray.Type_) (ndebug : Bool) (rt : JSCRuntime)
    (ptr : JSCTypedArray) (span : List Byte)
    (hwf : (rt.object ptr.obj_).wellFormed = true)
    (hspan : specByteSpan (rt.object ptr.obj_) = some span) :
    (ndebug = false → span.length % sizeofContentType T ≠ 0 →
      fromJSValue T ndebug rt (.object ptr) = .error .assertionFailed) ∧
    (ndebug = false → ∀ xs, fromJSValue T ndebug rt (.object ptr) = .ok xs →
      span.length % sizeofContentType T = 0 ∧
        xs.length = span.length / sizeofContentType T ∧ vectorStorage xs = span) ∧
    (span.length % sizeofContentType T = 0 →
      ∃ xs, fromJSValue T ndebug rt (.object ptr) = .ok xs ∧
        xs.length = span.length / sizeofContentType T ∧ vectorStorage xs = span) ∧
    (∀ xs, fromJSValue T ndebug rt (.object ptr) = .ok xs →
      xs.length = span.length / sizeofContentType T ∧
        vectorStorage xs
          = span.take (span.length / sizeofContentType T * sizeofContentType T)) ∧
    (ndebug = true → ∃ xs, fromJSValue T ndebug rt (.object ptr) = .ok xs) := by
  obtain ⟨ref⟩ := ptr
  obtain ⟨mem, off, hreg, hmem, hin, hsp⟩ := region_of_span rt ref span hwf hspan
  have hbad : ndebug = false → span.length % sizeofContentType T ≠ 0 →
      fromJSValue T ndebug rt (.object ⟨ref⟩) = .error .assertionFailed := by
    intro hn h
    subst hn
    exact fromJSValue_assert T rt ref _ _ _ hreg h
  have hfloor : (ndebug = true ∨ span.length % sizeofContentType T = 0) →
      ∃ xs, fromJSValue T ndebug rt (.object ⟨ref⟩) = .ok xs ∧
        xs.length = span.length / sizeofContentType T ∧
        vectorStorage xs
          = span.take (span.length / sizeofContentType T * sizeofContentType T) := by
    intro h
    obtain ⟨xs, h1, h2, h3⟩ :=
      fromJSValue_of_region_floor T ndebug rt ref mem off span.length hreg hmem hin h
    exact ⟨xs, h1, h2, by rw [h3, hsp]⟩
  have hgood : span.length % sizeofContentType T = 0 →
      ∃ xs, fromJSValue T ndebug rt (.object ⟨ref⟩) = .ok xs ∧
        xs.length = span.length / sizeofContentType T ∧ vectorStorage xs = span := by
    intro h
    obtain ⟨xs, h1, h2, h3⟩ := hfloor (Or.inr h)
    refine ⟨xs, h1, h2, ?_⟩
    rw [h3, Nat.div_mul_cancel (Nat.dvd_of_mod_eq_zero h), List.take_length]
  have hany : ∀ xs, fromJSValue T ndebug rt (.object ⟨ref⟩) = .ok xs →
      xs.length = span.length / sizeofContentType T ∧
        vectorStorage xs
          = span.take (span.length / sizeofContentType T * sizeofContentType T) := by
    intro xs hxs
    by_cases hpass : ndebug = true ∨ span.length % sizeofContentType T = 0
    · obtain ⟨ys, h1, h2, h3⟩ := hfloor hpass
      rw [h1] at hxs
      cases hxs
      exact ⟨h2, h3⟩
    · have hn : ndebug = false := by
        cases ndebug
        · rfl
        · exact absurd (Or.inl rfl) hpass
      rw [hbad hn (fun h => hpass (Or.inr h))] at hxs
      cases hxs
  refine ⟨hbad, ?_, hgood, hany, fun hn => ?_⟩
  · intro hn xs hxs
    by_cases hmod : span.length % sizeofContentType T = 0
    · obtain ⟨ys, h1, h2, h3⟩ := hgood hmod
      rw [h1] at hxs
      cases hxs
      exact ⟨hmod, h2, h3⟩
    · rw [hbad hn hmod] at hxs
      cases hxs
  · obtain ⟨xs, h1, _, _⟩ := hfloor (Or.inl hn)
    exact ⟨xs, h1⟩

theorem fromJSValue_element_width_witness :
    (false = false → ([0, 1, 2, 3, 4, 5] : List Byte).length % sizeofContentType .Int32Array ≠ 0 →
      fromJSValue .Int32Array false sixByteBufferRuntime (.object ⟨0⟩)
        = .error .assertionFailed) ∧
    (false = false →
      ∀ xs, fromJSValue .Int32Array false sixByteBufferRuntime (.object ⟨0⟩) = .ok xs →
      ([0, 1, 2, 3, 4, 5] : List Byte).length % sizeofContentType .Int32Array = 0 ∧
        xs.length = ([0, 1, 2, 3, 4, 5] : List Byte).length / sizeofContentType .Int32Array ∧
        vectorStorage xs = [0, 1, 2, 3, 4, 5]) ∧
    (([0, 1, 2, 3, 4, 5] : List Byte).length % sizeofContentType .Int32Array = 0 →
      ∃ xs, fromJSValue .Int32Array false sixByteBufferRuntime (.object ⟨0⟩) = .ok xs ∧
        xs.length = ([0, 1, 2, 3, 4, 5] : List Byte).length / sizeofContentType .Int32Array ∧
        vectorStorage xs = [0, 1, 2, 3, 4, 5]) ∧
    (∀ xs, fromJSValue .Int32Array false sixByteBufferRuntime (.object ⟨0⟩) = .ok xs →
      xs.length = ([0, 1, 2, 3, 4, 5] : List Byte).length / sizeofContentType .Int32Array ∧
        vectorStorage xs
          = ([0, 1, 2, 3, 4, 5] : List Byte).take
            (([0, 1, 2, 3, 4, 5] : List Byte).length / sizeofContentType .Int32Array
              * sizeofContentType .Int32Array)) ∧
    (false = true →
      ∃ xs, fromJSValue .Int32Array false sixByteBufferRuntime (.object ⟨0⟩) = .ok xs) :=
  fromJSValue_element_width .Int32Array false sixByteBufferRuntime ⟨0⟩ [0, 1, 2, 3, 4, 5]
    (by decide) (by decide)

/-- C9 (as stated) fails in a build with `NDEBUG` defined: the assertion of line 167 is
compiled out, and reading a 6-byte array buffer as `Int32Array` (6 is not a multiple of
4) does not fail but returns one element, the first four bytes: a truncated sequence. -/
theorem fromJSValue_truncates_without_assert :
    ([0, 1, 2, 3, 4, 5] : List Byte).length % sizeofContentType .Int32Array ≠ 0 ∧
    fromJSValue .Int32Array true sixByteBufferRuntime (.object ⟨0⟩)
      = .ok [⟨[0, 1, 2, 3], rfl⟩] ∧
    fromJSValue .Int32Array true sixByteBufferRuntime (.object ⟨0⟩)
      ≠ .error .assertionFailed := by
  decide

/-! ### In-place update (C2, C3) -/

theorem object_set_self (heap : List JSObject) (b : Bool) (tr : List Effect) (ref : JSObjectRef)
    (o : JSObject) (h : ref < heap.length) :
    (JSCRuntime.mk (heap.set ref o) b tr).object ref = o := by
  simp [JSCRuntime.object, List.getD_eq_getElem?_getD, List.getElem?_set_self h]

theorem object_typedArray_lt (rt : JSCRuntime) (ref : JSObjectRef) (ty : JSTypedArrayType)
    (buf : List Byte) (off len : Nat) (hobj : rt.object ref = .typedArray ty buf off len) :
    ref < rt.heap.length := by
  rcases Nat.lt_or_ge ref rt.heap.length with h | h
  · exact h
  · have hplain : rt.object ref = .plain := by
      simp only [JSCRuntime.object, List.getD_eq_getElem?_getD]
      rw [List.getElem?_eq_none h]
      rfl
    rw [hplain] at hobj
    cases hobj

/-- The state `updateWithData` leaves behind on a typed array that is large enough: the
first `data.length` bytes of the backing store are replaced, nothing else changes. -/
theorem updateWithData_typedArray (rt : JSCRuntime) (ref : JSObjectRef)
    (ty : JSTypedArrayType) (buf : List Byte) (off len : Nat) (data : List Byte)
    (hobj : rt.object ref = .typedArray ty buf off len)
    (hin : off + len ≤ buf.length) (hfit : data.length ≤ len) :
    updateWithData rt (.object ⟨ref⟩) data =
      (.ok (), ⟨rt.heap.set ref (.typedArray ty (data ++ buf.drop data.length) off len),
        rt.ctxInvalid, rt.trace⟩) := by
  have hlt : ¬ len < data.length := by omega
  have hle : data.length ≤ buf.length := by omega
  by_cases hd : data.length = 0
  · have hnil : data = [] := List.length_eq_zero.mp hd
    subst hnil
    have hset : rt.heap.set ref (.typedArray ty buf off len) = rt.heap := by
      have hlt := object_typedArray_lt rt ref ty buf off len hobj
      apply List.ext_getElem (by simp)
      intro i h1 h2
      by_cases hi : ref = i
      · subst hi
        simp only [List.getElem_set_self]
        simp only [JSCRuntime.object, List.getD_eq_getElem?_getD,
          List.getElem?_eq_getElem hlt, Option.getD_some] at hobj
        exact hobj.symm
      · simp [List.getElem_set_ne hi]
    simp [updateWithData, Convert.toJSC, Value.asObject, getCtxRef,
      JSObjectGetTypedArrayByteLength, JSObjectGetTypedArrayBytesPtr, hobj, stdCopy, hset]
  · simp [updateWithData, Convert.toJSC, Value.asObject, getCtxRef,
      JSObjectGetTypedArrayByteLength, JSObjectGetTypedArrayBytesPtr, hobj, hlt, stdCopy, hd,
      JSCRuntime.store, JSObject.backingStore, JSObject.withBackingStore, hle]

/-- What C2 asks for does hold when the view starts at byte offset 0 of its backing store:
after a successful update the handle reads back `data` followed by the old bytes from
position `data.length` on. -/
theorem updateWithData_readback_offset_zero (ndebug : Bool) (rt : JSCRuntime)
    (ref : JSObjectRef) (ty : JSTypedArrayType) (buf : List Byte) (len : Nat)
    (data : List Byte)
    (hobj : rt.object ref = .typedArray ty buf 0 len)
    (hwf : (JSObject.typedArray ty buf 0 len).wellFormed = true)
    (hfit : data.length ≤ len) :
    (updateWithData rt (.object ⟨ref⟩) data).1 = .ok () ∧
    ∃ xs, rawFromJSValue ndebug (updateWithData rt (.object ⟨ref⟩) data).2 (.object ⟨ref⟩)
        = .ok xs ∧
      vectorStorage xs = data ++ ((buf.take len).drop data.length) := by
  simp only [JSObject.wellFormed, Bool.and_eq_true, decide_eq_true_eq] at hwf
  obtain ⟨⟨h1, h2⟩, h3⟩ := hwf
  have hlt := object_typedArray_lt rt ref ty buf 0 len hobj
  rw [updateWithData_typedArray rt ref ty buf 0 len data hobj h3 hfit]
  refine ⟨rfl, ?_⟩
  have hobj2 := object_set_self rt.heap rt.ctxInvalid rt.trace ref
    (.typedArray ty (data ++ buf.drop data.length) 0 len) hlt
  have hreg := byteRegion_typedArray _ ref ty _ 0 len hobj2 h1 h2
  have hin : 0 + len ≤ (data ++ buf.drop data.length).length := by
    rw [List.length_append, List.length_drop]; omega
  obtain ⟨xs, hx1, _, hx3⟩ := fromJSValue_of_region .Uint8Array ndebug _ ref
    (data ++ buf.drop data.length) 0 len hreg (by rw [hobj2]; rfl) hin (Nat.mod_one len)
  refine ⟨xs, hx1, ?_⟩
  rw [hx3, List.drop_zero, List.take_append_eq_append_take, List.take_of_length_le hfit,
    List.drop_take]

/-- C2 (failing input). A `Uint8Array` view of 4 bytes at byte offset 2 of the buffer
`0,1,2,3,4,5` reads back as `2,3,4,5`. `updateWithData` with the two bytes `9,9`
succeeds, but it writes at the start of the backing store, not at the start of the view:
the buffer becomes `9,9,2,3,4,5` and the handle still reads back `2,3,4,5`, not
`9,9,4,5`. The reads are the same with and without `NDEBUG`. -/
theorem updateWithData_offset_view_misses_view :
    (rawFromJSValue false offsetViewRuntime (.object ⟨0⟩)).map vectorStorage
      = .ok [2, 3, 4, 5] ∧
    (rawFromJSValue true offsetViewRuntime (.object ⟨0⟩)).map vectorStorage
      = .ok [2, 3, 4, 5] ∧
    (updateWithData offsetViewRuntime (.object ⟨0⟩) [9, 9]).1 = .ok () ∧
    (updateWithData offsetViewRuntime (.object ⟨0⟩) [9, 9]).2.heap
      = [.typedArray kJSTypedArrayTypeUint8Array [9, 9, 2, 3, 4, 5] 2 4] ∧
    (rawFromJSValue false (updateWithData offsetViewRuntime (.object ⟨0⟩) [9, 9]).2
      (.object ⟨0⟩)).map vectorStorage = .ok [2, 3, 4, 5] ∧
    (rawFromJSValue true (updateWithData offsetViewRuntime (.object ⟨0⟩) [9, 9]).2
      (.object ⟨0⟩)).map vectorStorage = .ok [2, 3, 4, 5] ∧
    (rawFromJSValue false (updateWithData offsetViewRuntime (.object ⟨0⟩) [9, 9]).2
      (.object ⟨0⟩)).map vectorStorage ≠ .ok [9, 9, 4, 5] ∧
    (rawFromJSValue true (updateWithData offsetViewRuntime (.object ⟨0⟩) [9, 9]).2
      (.object ⟨0⟩)).map vectorStorage ≠ .ok [9, 9, 4, 5] := by
  decide

/-- C3 (as stated) fails on a handle to a plain array buffer: the handle reads back as 4
bytes, yet an update with 2 bytes throws the size-mismatch error although `4 < 2` is
false, because the length `updateWithData` compares with is the typed-array byte length,
which the engine reports as 0 for an object that is not a typed array. -/
theorem updateWithData_arrayBuffer_rejected :
    (rawFromJSValue false arrayBufferRuntime (.object ⟨0⟩)).map vectorStorage
      = .ok [1, 2, 3, 4] ∧
    (rawFromJSValue true arrayBufferRuntime (.object ⟨0⟩)).map vectorStorage
      = .ok [1, 2, 3, 4] ∧
    (updateWithData arrayBufferRuntime (.object ⟨0⟩) [9, 9]).1
      = .error (.runtimeError "TypedArray to small to fit provided data") ∧
    ¬ ([1, 2, 3, 4] : List Byte).length < ([9, 9] : List Byte).length := by
  decide

/-- C3 (amended). For every handle whose object has a shape the engine builds and every byte
sequence `data`, with `L` the typed-array byte length the engine reports for the object
(`JSObjectGetTypedArrayByteLength`: the byte length of a typed-array view, and 0 for an
array buffer or any other object): `updateWithData` fails if and only if
`L < data.length`, the failure is then the size-mismatch error, and whenever it fails
the runtime state, every byte of every buffer included, is exactly what it was. -/
theorem updateWithData_fails_iff (rt : JSCRuntime) (ptr : JSCTypedArray) (data : List Byte)
    (hwf : (rt.object ptr.obj_).wellFormed = true) :
    ((∃ e, (updateWithData rt (.object ptr) data).1 = .error e) ↔
      JSObjectGetTypedArrayByteLength rt ptr.obj_ < data.length) ∧
    (JSObjectGetTypedArrayByteLength rt ptr.obj_ < data.length →
      (updateWithData rt (.object ptr) data).1
        = .error (.runtimeError "TypedArray to small to fit provided data")) ∧
    (∀ e, (updateWithData rt (.object ptr) data).1 = .error e →
      (updateWithData rt (.object ptr) data).2 = rt) := by
  obtain ⟨ref⟩ := ptr
  by_cases hlt : JSObjectGetTypedArrayByteLength rt ref < data.length
  · have hres : updateWithData rt (.object ⟨ref⟩) data
        = (.error (.runtimeError "TypedArray to small to fit provided data"), rt) := by
      simp [updateWithData, Convert.toJSC, Value.asObject, getCtxRef, hlt]
    rw [hres]
    exact ⟨⟨fun _ => hlt, fun _ => ⟨_, rfl⟩⟩, fun _ => rfl, fun _ _ => rfl⟩
  · have hok : (updateWithData rt (.object ⟨ref⟩) data).1 = .ok () := by
      cases hobj : rt.object ref with
      | plain =>
        have hd : data.length = 0 := by
          simp [JSObjectGetTypedArrayByteLength, hobj] at hlt; simp [hlt]
        simp [updateWithData, Convert.toJSC, Value.asObject, getCtxRef,
          JSObjectGetTypedArrayByteLength, hobj, stdCopy, hd]
      | arrayBuffer bytes =>
        have hd : data.length = 0 := by
          simp [JSObjectGetTypedArrayByteLength, hobj] at hlt; simp [hlt]
        simp [updateWithData, Convert.toJSC, Value.asObject, getCtxRef,
          JSObjectGetTypedArrayByteLength, hobj, stdCopy, hd]
      | typedArray ty buf off len =>
        rw [hobj] at hwf
        simp only [JSObject.wellFormed, Bool.and_eq_true, decide_eq_true_eq] at hwf
        have hfit : data.length ≤ len := by
          simp [JSObjectGetTypedArrayByteLength, hobj] at hlt; exact hlt
        rw [updateWithData_typedArray rt ref ty buf off len data hobj hwf.2 hfit]
    refine ⟨⟨fun ⟨e, he⟩ => ?_, fun h => absurd h hlt⟩, fun h => absurd h hlt, fun e he => ?_⟩
    · rw [hok] at he; cases he
    · rw [hok] at he; cases he

theorem updateWithData_fails_iff_witness :
    ((∃ e, (updateWithData offsetViewRuntime (.object ⟨0⟩) [9, 9, 9, 9, 9]).1 = .error e) ↔
      JSObjectGetTypedArrayByteLength offsetViewRuntime 0
        < ([9, 9, 9, 9, 9] : List Byte).length) ∧
    (JSObjectGetTypedArrayByteLength offsetViewRuntime 0
        < ([9, 9, 9, 9, 9] : List Byte).length →
      (updateWithData offsetViewRuntime (.object ⟨0⟩) [9, 9, 9, 9, 9]).1
        = .error (.runtimeError "TypedArray to small to fit provided data")) ∧
    (∀ e, (updateWithData offsetViewRuntime (.object ⟨0⟩) [9, 9, 9, 9, 9]).1 = .error e →
      (updateWithData offsetViewRuntime (.object ⟨0⟩) [9, 9, 9, 9, 9]).2
        = offsetViewRuntime) :=
  updateWithData_fails_iff offsetViewRuntime ⟨0⟩ [9, 9, 9, 9, 9] (by decide)

/-! ### The Int32 scenario (C8) -/

/-- C8 (amended). Concrete scenario, in any runtime state, either byte order, with or
without `NDEBUG`: let
`h = create<Int32Array>([1,2,3])`; then `fromJSValue<Int32Array>(h) = [1,2,3]`;
`updateWithData(h, [9,9,9,9])` (four bytes) succeeds and overwrites exactly the four
bytes of the first element, so that element becomes `0x09090909 = 151587081`, elements
2 and 3 are unchanged, and `fromJSValue<Int32Array>(h) = [151587081, 2, 3]`. -/
theorem int32_update_scenario (rt : JSCRuntime) (bigEndian ndebug : Bool) :
    ∃ h,
      (create .Int32Array rt [int32 bigEndian 1, int32 bigEndian 2, int32 bigEndian 3]).1
        = .ok h ∧
      fromJSValue .Int32Array ndebug
        (create .Int32Array rt [int32 bigEndian 1, int32 bigEndian 2, int32 bigEndian 3]).2 h
        = .ok [int32 bigEndian 1, int32 bigEndian 2, int32 bigEndian 3] ∧
      (updateWithData
        (create .Int32Array rt [int32 bigEndian 1, int32 bigEndian 2, int32 bigEndian 3]).2
        h [9, 9, 9, 9]).1 = .ok () ∧
      fromJSValue .Int32Array ndebug (updateWithData
        (create .Int32Array rt [int32 bigEndian 1, int32 bigEndian 2, int32 bigEndian 3]).2
        h [9, 9, 9, 9]).2 h
        = .ok [int32 bigEndian 151587081, int32 bigEndian 2, int32 bigEndian 3] ∧
      vectorStorage [int32 bigEndian 151587081, int32 bigEndian 2, int32 bigEndian 3]
        = [9, 9, 9, 9] ++ (vectorStorage
            [int32 bigEndian 1, int32 bigEndian 2, int32 bigEndian 3]).drop 4 := by
  have hT : isViewType .Int32Array = true := by decide
  have hview := create_view rt [int32 bigEndian 1, int32 bigEndian 2, int32 bigEndian 3] hT
    (by simp [sizeofContentType])
  have hobj := object_append_new rt.heap rt.ctxInvalid
    (rt.trace ++ ((if [int32 bigEndian 1, int32 bigEndian 2, int32 bigEndian 3].length ≠ 0
      then [Effect.hostAlloc ([int32 bigEndian 1, int32 bigEndian 2, int32 bigEndian 3].length
        * sizeofContentType .Int32Array)] else []) ++ [Effect.protect rt.heap.length]))
    (.typedArray (jscTypeMap .Int32Array)
      (vectorStorage [int32 bigEndian 1, int32 bigEndian 2, int32 bigEndian 3]) 0
      ([int32 bigEndian 1, int32 bigEndian 2, int32 bigEndian 3].length
        * sizeofContentType .Int32Array))
  have hupd := updateWithData_typedArray _ _ _ _ _ _ [9, 9, 9, 9] hobj
    (by cases bigEndian <;> decide) (by simp [sizeofContentType])
  rw [hview]
  refine ⟨_, rfl, ?_, ?_, ?_, ?_⟩
  · exact fromJSValue_storage ndebug _ _ _ _ (by decide) (by decide) hobj
  · rw [hupd]
  · rw [hupd]
    refine fromJSValue_storage ndebug _ _ _ (jscTypeMap .Int32Array) (by decide)
      (by decide) ?_
    rw [object_set_self _ _ _ _ _ (by simp)]
    cases bigEndian <;> rfl
  · cases bigEndian <;> rfl

/-- C8 (as stated) fails: after the four bytes `9,9,9,9` are written over the first
element, reading the handle does not give `[9,2,3]`: the first element is `151587081`. -/
theorem int32_update_scenario_not_9_2_3 :
    fromJSValue .Int32Array false (updateWithData
        (create .Int32Array emptyRuntime [int32 false 1, int32 false 2, int32 false 3]).2
        (.object ⟨0⟩) [9, 9, 9, 9]).2 (.object ⟨0⟩)
      ≠ .ok [int32 false 9, int32 false 2, int32 false 3] ∧
    fromJSValue .Int32Array false (updateWithData
        (create .Int32Array emptyRuntime [int32 true 1, int32 true 2, int32 true 3]).2
        (.object ⟨0⟩) [9, 9, 9, 9]).2 (.object ⟨0⟩)
      ≠ .ok [int32 true 9, int32 true 2, int32 true 3] ∧
    fromJSValue .Int32Array true (updateWithData
        (create .Int32Array emptyRuntime [int32 false 1, int32 false 2, int32 false 3]).2
        (.object ⟨0⟩) [9, 9, 9, 9]).2 (.object ⟨0⟩)
      ≠ .ok [int32 false 9, int32 false 2, int32 false 3] ∧
    fromJSValue .Int32Array true (updateWithData
        (create .Int32Array emptyRuntime [int32 true 1, int32 true 2, int32 true 3]).2
        (.object ⟨0⟩) [9, 9, 9, 9]).2 (.object ⟨0⟩)
      ≠ .ok [int32 true 9, int32 true 2, int32 true 3] := by
  decide

/-! ### Totality of type detection (C5) -/

/-- C5 (amended). Type detection is total on objects: for every runtime state and every
host value that is an object, `typeFromJSValue` returns an element type, namely the image
under the switch of the engine type id of the object; an object that is not array-buffer
or typed-array shaped resolves to `None`, and so does every engine type id outside the ten
supported ones. For a host value that is not an object the call does not return: the
accessor `asObject` in `Convert::toJSC` throws. -/
theorem typeFromJSValue_total_on_objects (rt : JSCRuntime) (ptr : JSCTypedArray) :
    typeFromJSValue rt (.object ptr)
      = .ok (typeOfEngineType (JSValueGetTypedArrayType rt (some ptr.obj_))) ∧
    (specByteSpan (rt.object ptr.obj_) = none → typeFromJSValue rt (.object ptr) = .ok .None) ∧
    (∀ ty, (∀ T, T ≠ .None → ty ≠ jscTypeMap T) → typeOfEngineType ty = .None) ∧
    (∀ v, (∀ p, v ≠ .object p) → typeFromJSValue rt v = .error .jsError) := by
  refine ⟨rfl, ?_, ?_, ?_⟩
  · intro h
    cases hobj : rt.object ptr.obj_ with
    | plain =>
      simp [typeFromJSValue, Convert.toJSC, Value.asObject, getCtxRef,
        JSValueGetTypedArrayType, hobj, typeOfEngineType]
    | arrayBuffer bytes => rw [hobj] at h; simp [specByteSpan] at h
    | typedArray ty buf off len => rw [hobj] at h; simp [specByteSpan] at h
  · intro ty h
    cases ty with
    | kJSTypedArrayTypeInt8Array => exact absurd rfl (h .Int8Array (by decide))
    | kJSTypedArrayTypeInt16Array => exact absurd rfl (h .Int16Array (by decide))
    | kJSTypedArrayTypeInt32Array => exact absurd rfl (h .Int32Array (by decide))
    | kJSTypedArrayTypeUint8Array => exact absurd rfl (h .Uint8Array (by decide))
    | kJSTypedArrayTypeUint8ClampedArray => exact absurd rfl (h .Uint8ClampedArray (by decide))
    | kJSTypedArrayTypeUint16Array => exact absurd rfl (h .Uint16Array (by decide))
    | kJSTypedArrayTypeUint32Array => exact absurd rfl (h .Uint32Array (by decide))
    | kJSTypedArrayTypeFloat32Array => exact absurd rfl (h .Float32Array (by decide))
    | kJSTypedArrayTypeFloat64Array => exact absurd rfl (h .Float64Array (by decide))
    | kJSTypedArrayTypeArrayBuffer => exact absurd rfl (h .ArrayBuffer (by decide))
    | kJSTypedArrayTypeNone => rfl
    | other raw => rfl
  · intro v hv
    cases v with
    | object p => exact absurd rfl (hv p)
    | _ => rfl

/-- C5 (as stated) fails on a host value that is not an object: for a number,
`typeFromJSValue` throws instead of returning `None`. -/
theorem typeFromJSValue_throws_on_number :
    typeFromJSValue emptyRuntime .number = .error .jsError ∧
      typeFromJSValue emptyRuntime .number ≠ .ok .None := by
  decide

/-! ### Lifetime discipline (C6) -/

theorem count_append_singleton_ne (l : List Effect) (a b : Effect) (h : a ≠ b) :
    (l ++ [a]).count b = l.count b := by
  simp [List.count_append, List.count_cons, h]

theorem retainCount_push (heap : List JSObject) (b : Bool) (tr : List Effect) (e : Effect)
    (obj : JSObjectRef) (h1 : e ≠ Effect.protect obj) (h2 : e ≠ Effect.unprotect obj) :
    (JSCRuntime.mk heap b (tr ++ [e])).retainCount obj
      = (JSCRuntime.mk heap b tr).retainCount obj := by
  simp only [JSCRuntime.retainCount, count_append_singleton_ne _ _ _ h1,
    count_append_singleton_ne _ _ _ h2]

theorem updateWithData_trace (rt : JSCRuntime) (v : Value) (data : List Byte) :
    (updateWithData rt v data).2.trace = rt.trace := by
  unfold updateWithData
  simp only [getCtxRef]
  split
  · rfl
  · split
    · rfl
    · split
      · rename_i jsc1 heq
        simp only [stdCopy] at heq
        split at heq
        · simp only [Option.some.injEq] at heq; rw [← heq]
        · split at heq
          · simp at heq
          · simp only [JSCRuntime.store] at heq
            split at heq
            · simp at heq
            · split at heq
              · simp only [Option.some.injEq] at heq; rw [← heq]
              · simp at heq
      · rfl

theorem create_retainCount (T : TypedArray.Type_) (rt : JSCRuntime)
    (S : List (ContentType T)) (obj : JSObjectRef) (h : obj < rt.heap.length) :
    (create T rt S).2.retainCount obj = rt.retainCount obj := by
  have hne : rt.heap.length ≠ obj := Nat.ne_of_gt h
  have hp : ∀ (hp : List JSObject) (tr : List Effect),
      (JSCRuntime.mk hp rt.ctxInvalid (tr ++ [Effect.protect rt.heap.length])).retainCount obj
        = (JSCRuntime.mk hp rt.ctxInvalid tr).retainCount obj :=
    fun hp tr => retainCount_push hp _ tr _ obj (by simp [hne]) (by simp)
  have ha : ∀ (hp : List JSObject) (n : Nat),
      (JSCRuntime.mk hp rt.ctxInvalid (rt.trace ++ [Effect.hostAlloc n])).retainCount obj
        = rt.retainCount obj :=
    fun hp n => retainCount_push hp _ rt.trace _ obj (by simp) (by simp)
  unfold create
  simp only [getCtxRef, jscArrayType, newUint8Array, JSObjectMakeTypedArrayWithBytesNoCopy,
    JSObjectMakeTypedArray, Convert.toJSI, JSValueToObject, JSObjectMake, JSCTypedArray.new,
    JSValueProtect, JSCRuntime.alloc]
  cases hes : elementSize (jscTypeMap T) <;> simp only []
  all_goals
    split
    · split
      · rfl
      · rename_i jsc1 heq
        split at heq
        · simp at heq
        · simp only [Option.some.injEq] at heq
          subst heq
          simp only [hp, ha]
    · simp only [hp]
      rfl

/-- C6. Lifetime discipline: constructing a `JSCTypedArray` handle performs exactly one
protect call, on its object (also when the handle is made by `Convert::toJSI`);
invalidating a handle performs exactly one unprotect call on the same object when the
context-invalid flag is false and no call at all when the flag is true; `create` and
`updateWithData` leave the retain count of the object of every existing handle
unchanged. (`fromJSValue` and `typeFromJSValue` only read the runtime state: their
embeddings return no new state.) -/
theorem lifetime_discipline (rt : JSCRuntime) (obj : JSObjectRef) (h : JSCTypedArray)
    (value : JSValueRef) (T : TypedArray.Type_) (S : List (ContentType T)) (v : Value)
    (data : List Byte) (existing : JSObjectRef) (hex : existing < rt.heap.length) :
    ((JSCTypedArray.new rt obj).1.obj_ = obj ∧
      (JSCTypedArray.new rt obj).2.trace = rt.trace ++ [Effect.protect obj] ∧
      (JSCTypedArray.new rt obj).2.retainCount obj = rt.retainCount obj + 1) ∧
    (∃ ref, (Convert.toJSI rt value).1 = .object ⟨ref⟩ ∧
      (Convert.toJSI rt value).2.trace = rt.trace ++ [Effect.protect ref]) ∧
    (rt.ctxInvalid = false →
      (h.invalidate rt).trace = rt.trace ++ [Effect.unprotect h.obj_] ∧
      (h.invalidate rt).retainCount h.obj_ = rt.retainCount h.obj_ - 1) ∧
    (rt.ctxInvalid = true → (h.invalidate rt).trace = rt.trace) ∧
    (create T rt S).2.retainCount existing = rt.retainCount existing ∧
    (updateWithData rt v data).2.retainCount existing = rt.retainCount existing := by
  refine ⟨⟨rfl, rfl, ?_⟩, ?_, ?_, ?_, create_retainCount T rt S existing hex, ?_⟩
  · simp only [JSCTypedArray.new, JSValueProtect, JSCRuntime.retainCount, List.count_append,
      List.count_singleton_self]
    have hz : List.count (Effect.unprotect obj) [Effect.protect obj] = 0 := by
      simp [List.count_cons]
    rw [hz]
    push_cast
    ring
  · cases value with
    | none => exact ⟨_, rfl, rfl⟩
    | some ref => exact ⟨_, rfl, rfl⟩
  · intro hf
    refine ⟨by simp [JSCTypedArray.invalidate, hf, JSValueUnprotect], ?_⟩
    simp only [JSCTypedArray.invalidate, hf, JSValueUnprotect, JSCRuntime.retainCount,
      List.count_append, List.count_singleton_self, Bool.not_false, if_true]
    have hz : List.count (Effect.protect h.obj_) [Effect.unprotect h.obj_] = 0 := by
      simp [List.count_cons]
    rw [hz]
    push_cast
    ring
  · intro ht
    simp [JSCTypedArray.invalidate, ht]
  · simp only [JSCRuntime.retainCount, updateWithData_trace]

theorem lifetime_discipline_witness :
    ((JSCTypedArray.new offsetViewRuntime 0).1.obj_ = 0 ∧
      (JSCTypedArray.new offsetViewRuntime 0).2.trace
        = offsetViewRuntime.trace ++ [Effect.protect 0] ∧
      (JSCTypedArray.new offsetViewRuntime 0).2.retainCount 0
        = offsetViewRuntime.retainCount 0 + 1) ∧
    (∃ ref, (Convert.toJSI offsetViewRuntime (some 0)).1 = .object ⟨ref⟩ ∧
      (Convert.toJSI offsetViewRuntime (some 0)).2.trace
        = offsetViewRuntime.trace ++ [Effect.protect ref]) ∧
    (offsetViewRuntime.ctxInvalid = false →
      (JSCTypedArray.invalidate ⟨0⟩ offsetViewRuntime).trace
        = offsetViewRuntime.trace ++ [Effect.unprotect (JSCTypedArray.mk 0).obj_] ∧
      (JSCTypedArray.invalidate ⟨0⟩ offsetViewRuntime).retainCount (JSCTypedArray.mk 0).obj_
        = offsetViewRuntime.retainCount (JSCTypedArray.mk 0).obj_ - 1) ∧
    (offsetViewRuntime.ctxInvalid = true →
      (JSCTypedArray.invalidate ⟨0⟩ offsetViewRuntime).trace = offsetViewRuntime.trace) ∧
    (create .Float32Array offsetViewRuntime []).2.retainCount 0
      = offsetViewRuntime.retainCount 0 ∧
    (updateWithData offsetViewRuntime (.object ⟨0⟩) [9, 9]).2.retainCount 0
      = offsetViewRuntime.retainCount 0 :=
  lifetime_discipline offsetViewRuntime 0 ⟨0⟩ (some 0) .Float32Array [] (.object ⟨0⟩) [9, 9] 0
    (by decide)

/-! ### Allocation size (C10) -/

theorem create_of_negative (T : TypedArray.Type_) (rt : JSCRuntime)
    (S : List (ContentType T)) (hne : S.length ≠ 0) (hneg : createByteLength T S < 0) :
    create T rt S = (.error .badArrayNewLength, rt) := by
  simp [create, getCtxRef, hne, newUint8Array, hneg]

theorem create_of_zero (T : TypedArray.Type_) (rt : JSCRuntime)
    (S : List (ContentType T)) (hT : isViewType T = true) (hne : S.length ≠ 0)
    (hz : createByteLength T S = 0) :
    create T rt S
      = (.ok (.object ⟨rt.heap.length⟩),
          ⟨rt.heap ++ [.typedArray (jscTypeMap T) [] 0 0], rt.ctxInvalid,
            rt.trace ++ [Effect.hostAlloc 0, Effect.protect rt.heap.length]⟩) := by
  simp [create, getCtxRef, hne, newUint8Array, hz, JSObjectMakeTypedArrayWithBytesNoCopy,
    jscArrayType, elementSize_jscTypeMap T hT, JSCRuntime.alloc, Convert.toJSI,
    JSValueToObject, JSCTypedArray.new, JSValueProtect]

/-- C10 (failing inputs). For a vector of `2^29` `int32_t` elements the product
`n * sizeof(int32_t)` is `2^31`, the `int` local `byteLength` holds `-2^31`, and
`create<Int32Array>` ends in the exception of `new uint8_t[byteLength]`: nothing is
allocated or handed to the engine. For `2^30` elements the product is `2^32`, the `int`
holds `0`, and `create` allocates 0 bytes and returns a typed array of byte length 0. -/
theorem create_byteLength_wraps :
    createByteLength .Int32Array (List.replicate 536870912 (int32 false 0)) = -2147483648 ∧
    create .Int32Array emptyRuntime (List.replicate 536870912 (int32 false 0))
      = (.error .badArrayNewLength, emptyRuntime) ∧
    createByteLength .Int32Array (List.replicate 1073741824 (int32 false 0)) = 0 ∧
    create .Int32Array emptyRuntime (List.replicate 1073741824 (int32 false 0))
      = (.ok (.object ⟨0⟩),
          ⟨[.typedArray kJSTypedArrayTypeInt32Array [] 0 0], false,
            [Effect.hostAlloc 0, Effect.protect 0]⟩) := by
  have h1 : createByteLength .Int32Array (List.replicate 536870912 (int32 false 0))
      = -2147483648 := by
    rw [createByteLength, List.length_replicate]
    norm_num [intOfSizeT, sizeofContentType]
  have h2 : createByteLength .Int32Array (List.replicate 1073741824 (int32 false 0)) = 0 := by
    rw [createByteLength, List.length_replicate]
    norm_num [intOfSizeT, sizeofContentType]
  refine ⟨h1, ?_, h2, ?_⟩
  · exact create_of_negative _ _ _ (by rw [List.length_replicate]; norm_num)
      (by rw [h1]; norm_num)
  · exact create_of_zero _ _ _ (by decide) (by rw [List.length_replicate]; norm_num) h2

end TypedArrayJSC
